import Mathlib

/-!
Verification of the FitMon serverless endpoint (`api/chat.js`).

The handler is a single async JS function.  We embed it shallowly:

* JS strings are Lean `String`s (sequences of characters; the source only
  manipulates them by substring search, character filtering, truncation
  and trimming, all of which act per character).
* JS values that can appear in a request body or in the parsed model reply
  are modelled by `JVal` (string / number / boolean / null); absence of a
  field (`undefined`) is `Option.none`.  JS numbers are modelled as `Int`:
  the source only compares and takes `Math.min` with integer constants.
* The external fetch to the model API is an oracle parameter `Upstream`:
  the call can throw, return a non-ok HTTP status, or return an envelope
  whose text either fails `JSON.parse` or parses to a `ParsedResult`.
* `res.setHeader`/`res.status().json()` are modelled by an explicit
  `Response` record accumulating the headers set so far; the response also
  records whether the upstream fetch was reached (`calledUpstream`).
-/

/-- JS values relevant to the handler: strings, numbers, booleans, null. -/
inductive JVal where
  | str (s : String)
  | num (n : Int)
  | boolean (b : Bool)
  | null
deriving DecidableEq

/-- JS truthiness of a `JVal`. -/
def JVal.truthy : JVal → Bool
  | .str s => s != ""
  | .num n => n != 0
  | .boolean b => b
  | .null => false

/-- JS truthiness of a possibly-undefined value (`undefined` is falsy). -/
def truthyOpt : Option JVal → Bool
  | none => false
  | some v => v.truthy

/-- The object obtained from `JSON.parse(data.content[0].text)`.  The named
fields are the ones the handler reads or writes; `extra` carries any other
fields of the object, which the handler never touches. -/
structure ParsedResult where
  error : Option JVal
  activity : Option JVal
  calories_burned : Option JVal
  food : Option JVal
  calories : Option JVal
  extra : List (String × JVal)
deriving DecidableEq

/-- Outcome of `JSON.parse` on the model reply text. -/
inductive ReplyText where
  | unparseable (raw : String)
  | parsed (v : ParsedResult)
deriving DecidableEq

/-- Oracle for the upstream fetch: the call throws (network error or a
malformed envelope, caught by the surrounding try), returns a non-ok HTTP
status, or yields a reply text. -/
inductive Upstream where
  | throws
  | httpError
  | reply (t : ReplyText)
deriving DecidableEq

/-- Body of an HTTP response produced by the handler: either an error
object `\x7b error: s \x7d` or the (possibly clamped) parsed result. -/
inductive RespBody where
  | errMsg (s : String)
  | jsonResult (r : ParsedResult)
deriving DecidableEq

/-- An HTTP response: status code, headers set via `res.setHeader`, body,
and whether the upstream fetch was reached before responding. -/
structure Response where
  status : Nat
  headers : List (String × String)
  body : RespBody
  calledUpstream : Bool
deriving DecidableEq

/-- An inbound HTTP request.  `origin = none` models a request with no
Origin header; `bodyInput`/`bodyType` are the destructured fields of
`req.body || \x7b\x7d` (`none` = `undefined`, also covering a missing body). -/
structure Req where
  method : String
  origin : Option String
  bodyInput : Option JVal
  bodyType : Option JVal
deriving DecidableEq

/-- `leadMatch p s` : the character list `p` is an initial segment of `s`. -/
def leadMatch : List Char → List Char → Bool
  | [], _ => true
  | _ :: _, [] => false
  | p :: ps, c :: cs => (p == c) && leadMatch ps cs

/-- `hasSub p s` : `p` occurs as a contiguous substring of `s`
(JS `String.prototype.includes`). -/
def hasSub (p : List Char) : List Char → Bool
  | [] => p.isEmpty
  | c :: t => leadMatch p (c :: t) || hasSub p t

/-- The blocklist of `sanitizeInput` (`suspiciousPatterns` in the source). -/
def suspiciousPatterns : List String :=
  ["ignore previous", "ignore above", "disregard", "forget", "system:",
   "assistant:", "user:", "```", "instructions:", "new rules"]

/-- The characters removed by the sanitizer's regex `[<>\x7b\x7d[\]\\]`:
angle brackets, braces, square brackets and backslashes. -/
def specialChars : List Char :=
  ['<', '>', Char.ofNat 0x7b, Char.ofNat 0x7d, '[', ']', '\\']

/-- JS `String.prototype.trim`: drop leading and trailing whitespace. -/
def jsTrim (l : List Char) : List Char :=
  ((l.dropWhile Char.isWhitespace).reverse.dropWhile Char.isWhitespace).reverse

/-- `sanitizeInput` from `api/chat.js`: if the lower-cased input contains
any blocklisted pattern the whole input is replaced by "food item";
otherwise the structural characters are removed, the result truncated to
200 characters (`substring(0, 200)`) and trimmed. -/
def sanitizeInput (input : String) : String :=
  let lower := input.toList.map Char.toLower
  if suspiciousPatterns.any (fun p => hasSub p.toList lower) then
    "food item"
  else
    String.mk (jsTrim ((input.toList.filter (fun c => !(specialChars.contains c))).take 200))

/-- The fixed origin allow-list of the handler. -/
def allowedOrigins : List String :=
  ["http://localhost:3000",
   "http://localhost:5000",
   "https://fitmon-six.vercel.app",
   "https://fitmon-david-fierros-projects-de8eae2f.vercel.app",
   "https://fitmon-git-master-david-fierros-projects-de8eae2f.vercel.app"]

/-- The two `res.setHeader` calls made unconditionally after the origin
check, appended to whatever headers were already set. -/
def corsHeaders (hs : List (String × String)) : List (String × String) :=
  hs ++ [("Access-Control-Allow-Methods", "POST"),
         ("Access-Control-Allow-Headers", "Content-Type")]

/-- The response-processing tail of the handler: the try/catch around the
fetch, the `JSON.parse` of the reply text, the per-type shape validation
and the calorie clamping.  `isWorkout` records whether `type === 'workout'`
(the earlier validation guarantees `type` is `'workout'` or `'food'`). -/
def processReply (isWorkout : Bool) (up : Upstream)
    (headers : List (String × String)) : Response :=
  match up with
  | .throws => ⟨500, headers, .errMsg "Analysis failed", true⟩
  | .httpError => ⟨500, headers, .errMsg "Analysis service unavailable", true⟩
  | .reply (.unparseable _) => ⟨500, headers, .errMsg "Invalid response format", true⟩
  | .reply (.parsed r) =>
      if isWorkout && !(truthyOpt r.error) then
        match r.calories_burned, truthyOpt r.activity with
        | some (.num n), true =>
            ⟨200, headers,
             .jsonResult { r with calories_burned := some (.num (min n 2000)) }, true⟩
        | _, _ => ⟨500, headers, .errMsg "Invalid workout data", true⟩
      else if !isWorkout && !(truthyOpt r.error) then
        match r.calories, truthyOpt r.food with
        | some (.num n), true =>
            ⟨200, headers,
             .jsonResult { r with calories := some (.num (min n 3000)) }, true⟩
        | _, _ => ⟨500, headers, .errMsg "Invalid food data", true⟩
      else
        ⟨200, headers, .jsonResult r, true⟩

/-- Body validation and the upstream call, entered with the headers set by
the origin check.  Mirrors lines 29–131 of `api/chat.js`: the two
unconditional CORS headers, then `!input || typeof input !== 'string'`,
the 200-character bound, the type check, and the fetch. -/
def validateAndCall (req : Req) (up : Upstream)
    (hs : List (String × String)) : Response :=
  match req.bodyInput with
  | some (.str s) =>
      if s == "" then ⟨400, corsHeaders hs, .errMsg "Invalid input", false⟩
      else if 200 < s.length then
        ⟨400, corsHeaders hs, .errMsg "Input too long (max 200 characters)", false⟩
      else if req.bodyType == some (.str "workout")
              || req.bodyType == some (.str "food") then
        processReply (req.bodyType == some (.str "workout")) up (corsHeaders hs)
      else ⟨400, corsHeaders hs, .errMsg "Invalid type", false⟩
  | _ => ⟨400, corsHeaders hs, .errMsg "Invalid input", false⟩

/-- The exported handler of `api/chat.js`: method check, origin check
(`origin && allowedOrigins.includes(origin)`, else `origin` → 403), then
body validation and the upstream call. -/
def handler (req : Req) (up : Upstream) : Response :=
  if req.method == "POST" then
    match req.origin with
    | some o =>
        if o != "" && allowedOrigins.contains o then
          validateAndCall req up [("Access-Control-Allow-Origin", o)]
        else if o != "" then
          ⟨403, [], .errMsg "Origin not allowed", false⟩
        else
          validateAndCall req up []
    | none => validateAndCall req up []
  else
    ⟨405, [], .errMsg "Method not allowed", false⟩

/-- The request passes the origin gate (no 403): origin absent, empty, or
in the allow-list.  Spec-side characterization used in hypotheses. -/
def originPasses (req : Req) : Bool :=
  match req.origin with
  | none => true
  | some o => o == "" || allowedOrigins.contains o

/-- The body passes validation: `input` a non-empty string of at most 200
characters and `type` one of "workout"/"food".  Spec-side
characterization used in hypotheses. -/
def bodyValid (req : Req) : Bool :=
  match req.bodyInput with
  | some (.str s) =>
      s != "" && s.length ≤ 200
        && (req.bodyType == some (.str "workout")
            || req.bodyType == some (.str "food"))
  | _ => false

/-- The body is an error object `\x7b error: s \x7d` (as opposed to a model
result). -/
def RespBody.isError : RespBody → Bool
  | .errMsg _ => true
  | .jsonResult _ => false

/-- The headers set by the origin check alone: `Access-Control-Allow-Origin`
when the declared origin is non-empty and allow-listed, nothing otherwise. -/
def corsBase (req : Req) : List (String × String) :=
  match req.origin with
  | some o =>
      if o != "" && allowedOrigins.contains o then
        [("Access-Control-Allow-Origin", o)]
      else []
  | none => []

/-! ### Structural lemmas about the handler -/

/-- Every branch of `processReply` returns the headers it was given. -/
lemma processReply_headers (w : Bool) (up : Upstream)
    (hs : List (String × String)) : (processReply w up hs).headers = hs := by
  unfold processReply
  rcases up with _ | _ | (raw | r)
  · rfl
  · rfl
  · rfl
  · dsimp only
    split
    · split <;> rfl
    · split
      · split <;> rfl
      · rfl

/-- `processReply` responds with status 200 or 500. -/
lemma processReply_status (w : Bool) (up : Upstream)
    (hs : List (String × String)) :
    (processReply w up hs).status = 200 ∨ (processReply w up hs).status = 500 := by
  unfold processReply
  rcases up with _ | _ | (raw | r)
  · right; rfl
  · right; rfl
  · right; rfl
  · dsimp only
    split
    · split
      · left; rfl
      · right; rfl
    · split
      · split
        · left; rfl
        · right; rfl
      · left; rfl

/-- Every non-200 branch of `processReply` has an error body. -/
lemma processReply_shape (w : Bool) (up : Upstream)
    (hs : List (String × String)) :
    (processReply w up hs).status = 200
      ∨ ((processReply w up hs).body).isError = true := by
  unfold processReply
  rcases up with _ | _ | (raw | r)
  · right; rfl
  · right; rfl
  · right; rfl
  · dsimp only
    split
    · split
      · left; rfl
      · right; rfl
    · split
      · split
        · left; rfl
        · right; rfl
      · left; rfl

/-- Every branch of `validateAndCall` carries the two unconditional CORS
headers appended to the headers set by the origin check. -/
lemma validateAndCall_headers (req : Req) (up : Upstream)
    (hs : List (String × String)) :
    (validateAndCall req up hs).headers = corsHeaders hs := by
  unfold validateAndCall
  rcases req with ⟨m, o, bi, bt⟩
  rcases bi with _ | (s | n | b | _)
  · rfl
  · dsimp only
    split
    · rfl
    · split
      · rfl
      · split
        · exact processReply_headers _ _ _
        · rfl
  · rfl
  · rfl
  · rfl

/-- `validateAndCall` responds with status 400, 200 or 500. -/
lemma validateAndCall_status (req : Req) (up : Upstream)
    (hs : List (String × String)) :
    (validateAndCall req up hs).status = 400
      ∨ (validateAndCall req up hs).status = 200
      ∨ (validateAndCall req up hs).status = 500 := by
  unfold validateAndCall
  rcases req with ⟨m, o, bi, bt⟩
  rcases bi with _ | (s | n | b | _)
  · left; rfl
  · dsimp only
    split
    · left; rfl
    · split
      · left; rfl
      · split
        · right; exact processReply_status _ _ _
        · left; rfl
  · left; rfl
  · left; rfl
  · left; rfl

/-- Every non-200 branch of `validateAndCall` has an error body. -/
lemma validateAndCall_shape (req : Req) (up : Upstream)
    (hs : List (String × String)) :
    (validateAndCall req up hs).status = 200
      ∨ ((validateAndCall req up hs).body).isError = true := by
  unfold validateAndCall
  rcases req with ⟨m, o, bi, bt⟩
  rcases bi with _ | (s | n | b | _)
  · right; rfl
  · dsimp only
    split
    · right; rfl
    · split
      · right; rfl
      · split
        · exact processReply_shape _ _ _
        · right; rfl
  · right; rfl
  · right; rfl
  · right; rfl

/-- Every non-200 response of the handler has an error body. -/
lemma handler_shape (req : Req) (up : Upstream) :
    (handler req up).status = 200 ∨ ((handler req up).body).isError = true := by
  unfold handler
  split
  · split
    · split
      · exact validateAndCall_shape _ _ _
      · split
        · right; rfl
        · exact validateAndCall_shape _ _ _
    · exact validateAndCall_shape _ _ _
  · right; rfl

/-- When the method is POST and the origin gate passes, the handler is
body validation entered with the headers set by the origin check. -/
lemma handler_origin_eq (req : Req) (up : Upstream)
    (hm : req.method = "POST") (ho : originPasses req = true) :
    handler req up = validateAndCall req up (corsBase req) := by
  rcases req with ⟨m, o, bi, bt⟩
  dsimp only at hm
  subst hm
  unfold handler originPasses corsBase at *
  rcases o with _ | o
  · rfl
  · dsimp only at ho ⊢
    by_cases h1 : o = ""
    · subst h1
      simp
    · have hbeq : (o == "") = false := beq_eq_false_iff_ne.mpr h1
      have h2 : allowedOrigins.contains o = true := by
        have h' := ho
        rw [hbeq] at h'
        simpa using h'
      have h3 : o ∈ allowedOrigins := by simpa using h2
      simp [bne, hbeq, h2, h3]

/-- When the body passes validation, `validateAndCall` reaches the fetch
and processes the reply. -/
lemma validateAndCall_valid_eq (req : Req) (up : Upstream)
    (hs : List (String × String)) (hb : bodyValid req = true) :
    validateAndCall req up hs
      = processReply (req.bodyType == some (JVal.str "workout")) up (corsHeaders hs) := by
  rcases req with ⟨m, o, bi, bt⟩
  rcases bi with _ | (s | n | b | _)
  · exact (Bool.false_ne_true hb).elim
  · dsimp only [bodyValid] at hb
    rw [Bool.and_eq_true, Bool.and_eq_true] at hb
    obtain ⟨⟨h1, h2⟩, h3⟩ := hb
    have hne : (s == "") = false := beq_eq_false_iff_ne.mpr (bne_iff_ne.mp h1)
    have hlen : ¬(200 < s.length) := by
      have := of_decide_eq_true h2
      omega
    unfold validateAndCall
    dsimp only
    rw [if_neg (by simp [hne]), if_neg hlen, if_pos h3]
  · exact (Bool.false_ne_true hb).elim
  · exact (Bool.false_ne_true hb).elim
  · exact (Bool.false_ne_true hb).elim

/-- A fully valid request reaches the fetch with the CORS headers fixed by
the origin check. -/
lemma handler_valid_eq (req : Req) (up : Upstream)
    (hm : req.method = "POST") (ho : originPasses req = true)
    (hb : bodyValid req = true) :
    handler req up
      = processReply (req.bodyType == some (JVal.str "workout")) up
          (corsHeaders (corsBase req)) := by
  rw [handler_origin_eq req up hm ho]
  exact validateAndCall_valid_eq req up (corsBase req) hb

/-! ### Claims -/

/-- C1: any input containing a blocklisted prompt-injection trigger
substring (matched case-insensitively) — the blocklist includes
"ignore previous", "system:" and backticks — is sanitized to exactly the
fixed fallback "food item", regardless of the rest of the input; the
input is never partially cleaned. -/
theorem C1_blocklist_replaced_by_fallback (input : String)
    (h : ∃ p ∈ suspiciousPatterns,
        hasSub p.toList (input.toList.map Char.toLower) = true) :
    sanitizeInput input = "food item"
      ∧ "ignore previous" ∈ suspiciousPatterns
      ∧ "system:" ∈ suspiciousPatterns
      ∧ "```" ∈ suspiciousPatterns := by
  refine ⟨?_, by decide, by decide, by decide⟩
  have hc : (suspiciousPatterns.any
      (fun p => hasSub p.toList (input.toList.map Char.toLower))) = true := by
    rcases h with ⟨p, hp, hsub⟩
    exact List.any_eq_true.mpr ⟨p, hp, hsub⟩
  simp only [sanitizeInput, hc, if_true]

/-- Witness for C1 at a concrete blocklisted input. -/
theorem C1_witness :
    sanitizeInput "Please SYSTEM: do things" = "food item"
      ∧ "ignore previous" ∈ suspiciousPatterns
      ∧ "system:" ∈ suspiciousPatterns
      ∧ "```" ∈ suspiciousPatterns :=
  C1_blocklist_replaced_by_fallback "Please SYSTEM: do things"
    ⟨"system:", by decide, by decide⟩

/-- C6: a reply from the upstream call with successful HTTP status whose
text is not parseable as JSON yields 500 with body exactly the error
object "Invalid response format". -/
theorem C6_unparseable_reply_500 (req : Req) (raw : String)
    (hm : req.method = "POST") (ho : originPasses req = true)
    (hb : bodyValid req = true) :
    (handler req (Upstream.reply (ReplyText.unparseable raw))).status = 500
      ∧ (handler req (Upstream.reply (ReplyText.unparseable raw))).body
          = RespBody.errMsg "Invalid response format" := by
  rw [handler_valid_eq req _ hm ho hb]
  exact ⟨rfl, rfl⟩

/-- Witness for C6 at a concrete valid request and unparseable reply. -/
theorem C6_witness :
    (handler ⟨"POST", none, some (JVal.str "apple"), some (JVal.str "food")⟩
        (Upstream.reply (ReplyText.unparseable "not json"))).status = 500
      ∧ (handler ⟨"POST", none, some (JVal.str "apple"), some (JVal.str "food")⟩
          (Upstream.reply (ReplyText.unparseable "not json"))).body
          = RespBody.errMsg "Invalid response format" :=
  C6_unparseable_reply_500 _ "not json" rfl (by decide) (by decide)

/-- C7: every non-200 response produced by the handler is an error
object: a JSON object with a single string `error` field
(`RespBody.errMsg`), with no other fields or internal details. -/
theorem C7_error_responses_are_error_objects (req : Req) (up : Upstream)
    (h : (handler req up).status ≠ 200) :
    ((handler req up).body).isError = true :=
  (handler_shape req up).resolve_left h

/-- Witness for C7 at a concrete failing request. -/
theorem C7_witness :
    ((handler ⟨"GET", some "https://nowhere.example", none, none⟩
        Upstream.throws).body).isError = true :=
  C7_error_responses_are_error_objects
    ⟨"GET", some "https://nowhere.example", none, none⟩ Upstream.throws (by decide)

/-- C9: every request whose method is not POST is answered with 405 and
the fixed error body, with no upstream call. -/
theorem C9_non_post_rejected (req : Req) (up : Upstream)
    (h : req.method ≠ "POST") :
    (handler req up).status = 405
      ∧ (handler req up).body = RespBody.errMsg "Method not allowed"
      ∧ (handler req up).calledUpstream = false := by
  have hb : (req.method == "POST") = false := beq_eq_false_iff_ne.mpr h
  unfold handler
  rw [if_neg (by simp [hb])]
  exact ⟨rfl, rfl, rfl⟩

/-- Witness for C9 at a concrete GET request. -/
theorem C9_witness :
    (handler ⟨"GET", none, none, none⟩ Upstream.httpError).status = 405
      ∧ (handler ⟨"GET", none, none, none⟩ Upstream.httpError).body
          = RespBody.errMsg "Method not allowed"
      ∧ (handler ⟨"GET", none, none, none⟩ Upstream.httpError).calledUpstream = false :=
  C9_non_post_rejected ⟨"GET", none, none, none⟩ Upstream.httpError (by decide)

/-- C10: when the parsed model reply has a truthy `error` field, the
handler returns 200 with the parsed object exactly as received: per-type
shape validation and calorie clamping are skipped, so every field of the
object (including implausible calorie values and extra fields) is passed
through unvalidated and unclamped. -/
theorem C10_error_field_passthrough (req : Req) (r : ParsedResult)
    (hm : req.method = "POST") (ho : originPasses req = true)
    (hb : bodyValid req = true) (herr : truthyOpt r.error = true) :
    (handler req (Upstream.reply (ReplyText.parsed r))).status = 200
      ∧ (handler req (Upstream.reply (ReplyText.parsed r))).body
          = RespBody.jsonResult r := by
  rw [handler_valid_eq req _ hm ho hb]
  simp [processReply, herr]

/-- Witness for C10: an error object with implausible calorie fields and
an extra field is passed through untouched. -/
theorem C10_witness :
    (handler ⟨"POST", none, some (JVal.str "apple"), some (JVal.str "food")⟩
        (Upstream.reply (ReplyText.parsed
          ⟨some (JVal.str "Please describe food"), none, some (JVal.num 9999),
           none, some (JVal.num 9999), [("note", JVal.str "extra")]⟩))).status = 200
      ∧ (handler ⟨"POST", none, some (JVal.str "apple"), some (JVal.str "food")⟩
          (Upstream.reply (ReplyText.parsed
            ⟨some (JVal.str "Please describe food"), none, some (JVal.num 9999),
             none, some (JVal.num 9999), [("note", JVal.str "extra")]⟩))).body
          = RespBody.jsonResult
              ⟨some (JVal.str "Please describe food"), none, some (JVal.num 9999),
               none, some (JVal.num 9999), [("note", JVal.str "extra")]⟩ :=
  C10_error_field_passthrough _ _ rfl (by decide) (by decide) (by decide)

/-- C2: on the success path, calorie fields of the parsed reply are
clamped with `Math.min`: a workout reply with `calories_burned` n is
answered with `min n 2000` (so 5000 becomes 2000) and a food reply with
`calories` n is answered with `min n 3000` (so 10000 becomes 3000). -/
theorem C2_calorie_clamp (req : Req) (r : ParsedResult) (n : Int)
    (hm : req.method = "POST") (ho : originPasses req = true)
    (hb : bodyValid req = true) (herr : truthyOpt r.error = false) :
    (req.bodyType = some (JVal.str "workout") → truthyOpt r.activity = true →
      (handler req (Upstream.reply (ReplyText.parsed
          { r with calories_burned := some (JVal.num n) }))).status = 200
      ∧ (handler req (Upstream.reply (ReplyText.parsed
          { r with calories_burned := some (JVal.num n) }))).body
          = RespBody.jsonResult { r with calories_burned := some (JVal.num (min n 2000)) })
    ∧ (req.bodyType = some (JVal.str "food") → truthyOpt r.food = true →
      (handler req (Upstream.reply (ReplyText.parsed
          { r with calories := some (JVal.num n) }))).status = 200
      ∧ (handler req (Upstream.reply (ReplyText.parsed
          { r with calories := some (JVal.num n) }))).body
          = RespBody.jsonResult { r with calories := some (JVal.num (min n 3000)) }) := by
  constructor
  · intro ht hact
    rw [handler_valid_eq req _ hm ho hb, ht]
    simp [processReply, herr, hact]
  · intro ht hfood
    rw [handler_valid_eq req _ hm ho hb, ht]
    simp [processReply, herr, hfood]

/-- Witness for C2: 5000 workout calories are clamped to 2000 and 10000
food calories are clamped to 3000. -/
theorem C2_witness :
    ((handler ⟨"POST", none, some (JVal.str "ran"), some (JVal.str "workout")⟩
        (Upstream.reply (ReplyText.parsed
          ⟨none, some (JVal.str "running"), some (JVal.num 5000), none, none, []⟩))).body
        = RespBody.jsonResult
            ⟨none, some (JVal.str "running"), some (JVal.num 2000), none, none, []⟩)
    ∧ ((handler ⟨"POST", none, some (JVal.str "rice"), some (JVal.str "food")⟩
        (Upstream.reply (ReplyText.parsed
          ⟨none, none, none, some (JVal.str "rice"), some (JVal.num 10000), []⟩))).body
        = RespBody.jsonResult
            ⟨none, none, none, some (JVal.str "rice"), some (JVal.num 3000), []⟩) := by
  constructor
  · have h := (C2_calorie_clamp
      ⟨"POST", none, some (JVal.str "ran"), some (JVal.str "workout")⟩
      ⟨none, some (JVal.str "running"), none, none, none, []⟩ 5000
      rfl (by decide) (by decide) (by decide)).1 rfl (by decide)
    have hmin : (min (5000 : Int) 2000) = 2000 := by decide
    rw [hmin] at h
    exact h.2
  · have h := (C2_calorie_clamp
      ⟨"POST", none, some (JVal.str "rice"), some (JVal.str "food")⟩
      ⟨none, none, none, some (JVal.str "rice"), none, []⟩ 10000
      rfl (by decide) (by decide) (by decide)).2 rfl (by decide)
    have hmin : (min (10000 : Int) 3000) = 3000 := by decide
    rw [hmin] at h
    exact h.2

/-- C3 fails as stated: a POST request whose body fails validation (input
missing) but whose Origin header is not allow-listed is answered 403 by
the origin check, not 400. -/
theorem C3_counterexample :
    (handler ⟨"POST", some "https://evil.example", none, none⟩
        Upstream.httpError).status = 403
      ∧ (handler ⟨"POST", some "https://evil.example", none, none⟩
          Upstream.httpError).status ≠ 400 := by
  decide

/-- C3 (amended): for every POST request that passes the origin check and
whose body fails validation — input missing, not a string, empty, or
longer than 200 characters, or type outside workout/food — the handler
returns 400 with a descriptive error message and makes no upstream call. -/
theorem C3_invalid_body_400 (req : Req) (up : Upstream)
    (hm : req.method = "POST") (ho : originPasses req = true)
    (hb : bodyValid req = false) :
    (handler req up).status = 400
      ∧ (handler req up).calledUpstream = false
      ∧ ((handler req up).body = RespBody.errMsg "Invalid input"
         ∨ (handler req up).body = RespBody.errMsg "Input too long (max 200 characters)"
         ∨ (handler req up).body = RespBody.errMsg "Invalid type") := by
  rw [handler_origin_eq req up hm ho]
  rcases req with ⟨m, o, bi, bt⟩
  rcases bi with _ | (s | n | b | _)
  · exact ⟨rfl, rfl, Or.inl rfl⟩
  · dsimp only [bodyValid] at hb
    unfold validateAndCall
    dsimp only
    split
    · exact ⟨rfl, rfl, Or.inl rfl⟩
    · split
      · exact ⟨rfl, rfl, Or.inr (Or.inl rfl)⟩
      · split
        · exfalso
          rename_i hns hlen htype
          simp only [Bool.not_eq_true] at hns
          have hbne : (s != "") = true := by simp [bne, hns]
          have hdec : decide (s.length ≤ 200) = true := decide_eq_true (by omega)
          rw [hbne, hdec, htype] at hb
          simp at hb
        · exact ⟨rfl, rfl, Or.inr (Or.inr rfl)⟩
  · exact ⟨rfl, rfl, Or.inl rfl⟩
  · exact ⟨rfl, rfl, Or.inl rfl⟩
  · exact ⟨rfl, rfl, Or.inl rfl⟩

/-- Witness for C3 (amended) at a POST request with no origin and a
missing body. -/
theorem C3_witness :
    (handler ⟨"POST", none, none, none⟩ Upstream.httpError).status = 400
      ∧ (handler ⟨"POST", none, none, none⟩ Upstream.httpError).calledUpstream = false
      ∧ ((handler ⟨"POST", none, none, none⟩ Upstream.httpError).body
            = RespBody.errMsg "Invalid input"
         ∨ (handler ⟨"POST", none, none, none⟩ Upstream.httpError).body
            = RespBody.errMsg "Input too long (max 200 characters)"
         ∨ (handler ⟨"POST", none, none, none⟩ Upstream.httpError).body
            = RespBody.errMsg "Invalid type") :=
  C3_invalid_body_400 ⟨"POST", none, none, none⟩ Upstream.httpError rfl (by decide) (by decide)

/-- C4: for every POST request declaring a non-empty Origin header: an
allow-listed origin receives a matching Access-Control-Allow-Origin
header, and any other origin receives status 403 with no upstream call. -/
theorem C4_origin_allowlist (req : Req) (up : Upstream) (o : String)
    (hm : req.method = "POST") (ho : req.origin = some o) (hne : o ≠ "") :
    (o ∈ allowedOrigins →
        ("Access-Control-Allow-Origin", o) ∈ (handler req up).headers)
    ∧ (o ∉ allowedOrigins →
        (handler req up).status = 403
          ∧ (handler req up).calledUpstream = false) := by
  rcases req with ⟨m, o', bi, bt⟩
  dsimp only at hm ho
  subst hm
  subst ho
  have hbne : (o != "") = true := bne_iff_ne.mpr hne
  constructor
  · intro hmem
    have hc : allowedOrigins.contains o = true := by simpa using hmem
    have he : handler ⟨"POST", some o, bi, bt⟩ up
        = validateAndCall ⟨"POST", some o, bi, bt⟩ up
            [("Access-Control-Allow-Origin", o)] := by
      simp [handler, hbne, hc, hmem]
    rw [he, validateAndCall_headers]
    simp [corsHeaders]
  · intro hmem
    have hc : allowedOrigins.contains o = false := by
      rw [← Bool.not_eq_true]
      intro hcc
      exact hmem (by simpa using hcc)
    have he : handler ⟨"POST", some o, bi, bt⟩ up
        = ⟨403, [], RespBody.errMsg "Origin not allowed", false⟩ := by
      simp [handler, hbne, hc, hmem]
    rw [he]
    exact ⟨rfl, rfl⟩

/-- Witness for C4: an allow-listed origin gets its CORS header back and
an unknown origin is answered 403 without an upstream call. -/
theorem C4_witness :
    (("Access-Control-Allow-Origin", "http://localhost:3000")
        ∈ (handler ⟨"POST", some "http://localhost:3000", none, none⟩
            Upstream.httpError).headers)
    ∧ ((handler ⟨"POST", some "https://evil.example", none, none⟩
          Upstream.throws).status = 403
        ∧ (handler ⟨"POST", some "https://evil.example", none, none⟩
            Upstream.throws).calledUpstream = false) :=
  ⟨(C4_origin_allowlist ⟨"POST", some "http://localhost:3000", none, none⟩
      Upstream.httpError "http://localhost:3000" rfl rfl (by decide)).1 (by decide),
   (C4_origin_allowlist ⟨"POST", some "https://evil.example", none, none⟩
      Upstream.throws "https://evil.example" rfl rfl (by decide)).2 (by decide)⟩

/-- C5 fails as stated: a POST request with no Origin header is processed
(status 200 here), yet its response does carry CORS headers: the handler
sets Access-Control-Allow-Methods and Access-Control-Allow-Headers
unconditionally after the origin check. -/
theorem C5_counterexample :
    (handler ⟨"POST", none, some (JVal.str "apple"), some (JVal.str "food")⟩
        (Upstream.reply (ReplyText.parsed
          ⟨some (JVal.str "off topic"), none, none, none, none, []⟩))).status = 200
      ∧ ("Access-Control-Allow-Methods", "POST")
          ∈ (handler ⟨"POST", none, some (JVal.str "apple"), some (JVal.str "food")⟩
              (Upstream.reply (ReplyText.parsed
                ⟨some (JVal.str "off topic"), none, none, none, none, []⟩))).headers := by
  decide

/-- C5 (amended): every POST request with no Origin header proceeds past
the origin check (it is never answered 403 or 405) and its response
carries no Access-Control-Allow-Origin header; it does however carry the
unconditionally-set Access-Control-Allow-Methods: POST and
Access-Control-Allow-Headers: Content-Type headers. -/
theorem C5_no_origin_proceeds (req : Req) (up : Upstream)
    (hm : req.method = "POST") (ho : req.origin = none) :
    (handler req up).status ≠ 403
      ∧ (handler req up).status ≠ 405
      ∧ (((handler req up).headers.all
            (fun p => p.1 != "Access-Control-Allow-Origin")) = true)
      ∧ ("Access-Control-Allow-Methods", "POST") ∈ (handler req up).headers
      ∧ ("Access-Control-Allow-Headers", "Content-Type") ∈ (handler req up).headers := by
  have he : handler req up = validateAndCall req up [] := by
    rcases req with ⟨m, o, bi, bt⟩
    dsimp only at hm ho
    subst hm
    subst ho
    rfl
  have hh : (handler req up).headers = corsHeaders [] := by
    rw [he, validateAndCall_headers]
  refine ⟨?_, ?_, ?_, ?_, ?_⟩
  · rw [he]
    rcases validateAndCall_status req up [] with h | h | h <;> omega
  · rw [he]
    rcases validateAndCall_status req up [] with h | h | h <;> omega
  · rw [hh]
    decide
  · rw [hh]
    decide
  · rw [hh]
    decide

/-- Witness for C5 (amended) at a concrete request with no Origin header. -/
theorem C5_witness :
    (handler ⟨"POST", none, none, none⟩ Upstream.throws).status ≠ 403
      ∧ (handler ⟨"POST", none, none, none⟩ Upstream.throws).status ≠ 405
      ∧ (((handler ⟨"POST", none, none, none⟩ Upstream.throws).headers.all
            (fun p => p.1 != "Access-Control-Allow-Origin")) = true)
      ∧ ("Access-Control-Allow-Methods", "POST")
          ∈ (handler ⟨"POST", none, none, none⟩ Upstream.throws).headers
      ∧ ("Access-Control-Allow-Headers", "Content-Type")
          ∈ (handler ⟨"POST", none, none, none⟩ Upstream.throws).headers :=
  C5_no_origin_proceeds ⟨"POST", none, none, none⟩ Upstream.throws rfl rfl

/-- `jsTrim` returns a sublist of its argument. -/
lemma jsTrim_sublist (l : List Char) : List.Sublist (jsTrim l) l := by
  unfold jsTrim
  have h1 : List.Sublist (l.dropWhile Char.isWhitespace) l := List.dropWhile_sublist _
  have h2 : List.Sublist
      ((l.dropWhile Char.isWhitespace).reverse.dropWhile Char.isWhitespace)
      (l.dropWhile Char.isWhitespace).reverse := List.dropWhile_sublist _
  have h3 := h2.reverse
  rw [List.reverse_reverse] at h3
  exact h3.trans h1

/-- C8 fails as stated: on a clean input the sanitizer additionally trims
leading and trailing whitespace (`.trim()`), so its output is not always
the input with the structural characters removed and truncated. -/
theorem C8_counterexample :
    (suspiciousPatterns.all
        (fun p => !(hasSub p.toList (" a ".toList.map Char.toLower)))) = true
      ∧ sanitizeInput " a " = "a"
      ∧ sanitizeInput " a "
          ≠ String.mk ((" a ".toList.filter
              (fun c => !(specialChars.contains c))).take 200) := by
  decide

/-- C8 (amended): for every input containing no blocklisted substring, the
sanitizer returns the input with the structural characters (angle
brackets, braces, square brackets, backslashes) removed, truncated to at
most 200 characters, and trimmed of leading and trailing whitespace; in
particular the output never exceeds 200 characters and never contains a
structural character. -/
theorem C8_clean_input_stripped (input : String)
    (h : ∀ p ∈ suspiciousPatterns,
        hasSub p.toList (input.toList.map Char.toLower) = false) :
    sanitizeInput input
        = String.mk (jsTrim ((input.toList.filter
            (fun c => !(specialChars.contains c))).take 200))
      ∧ (sanitizeInput input).length ≤ 200
      ∧ (((sanitizeInput input).toList.all
            (fun c => !(specialChars.contains c))) = true) := by
  have hc : (suspiciousPatterns.any
      (fun p => hasSub p.toList (input.toList.map Char.toLower))) = false :=
    List.any_eq_false.mpr (fun p hp => by simpa using h p hp)
  have he : sanitizeInput input
      = String.mk (jsTrim ((input.toList.filter
          (fun c => !(specialChars.contains c))).take 200)) := by
    simp only [sanitizeInput, hc, Bool.false_eq_true, if_false]
  refine ⟨he, ?_, ?_⟩
  · rw [he, String.length_mk]
    exact le_trans (jsTrim_sublist _).length_le (List.length_take_le 200 _)
  · rw [he]
    apply List.all_eq_true.mpr
    intro c hcmem
    have hcl : c ∈ (input.toList.filter
        (fun c => !(specialChars.contains c))).take 200 :=
      (jsTrim_sublist _).subset hcmem
    have hfl : c ∈ input.toList.filter (fun c => !(specialChars.contains c)) :=
      List.take_subset _ _ hcl
    exact (List.mem_filter.mp hfl).2

/-- Witness for C8 (amended) at a concrete clean input. -/
theorem C8_witness :
    sanitizeInput "a<b>[c]"
        = String.mk (jsTrim ((("a<b>[c]".toList.filter
            (fun c => !(specialChars.contains c))).take 200)))
      ∧ (sanitizeInput "a<b>[c]").length ≤ 200
      ∧ (((sanitizeInput "a<b>[c]").toList.all
            (fun c => !(specialChars.contains c))) = true) :=
  C8_clean_input_stripped "a<b>[c]" (by decide)
